import Mathlib

/-!
Verification of the provable boolean OR expression node
(`crates/proof-of-sql/src/sql/ast/or_expr.rs`) against its specification.

The node supports three synchronized passes (count / prover / verifier)
threaded through builder objects.  The free functions `result_evaluate_or`,
`prover_evaluate_or`, `verifier_evaluate_or` and `count_or` are embedded
directly from the source.  The builder objects themselves
(`CountBuilder`, `ProofBuilder`, `VerificationBuilder`) and the error type
`ProofError` live outside the provided sources, so their operations are
modelled from the specification's description of them.

Rust `assert!`/panic is modelled by `Option`; recoverable `Result` is
modelled by `Except ProofError`.  Scalars are an arbitrary commutative
ring `S` (the source is generic over a `Scalar` trait); booleans embed
into `S` as `{0, 1}`.
-/

namespace SxtOr

/-- Modelled from the spec: `ProofError` (base/proof, not in the provided
sources) is the typed error surfaced by the recoverable count/verifier
passes; §7 distinguishes shape-mismatch from verification failure. -/
inductive ProofError where
  | VerificationError : ProofError
deriving DecidableEq, Repr

/-- `SumcheckSubpolynomialType` from `sql/proof` (declaration not in the
provided sources): the kind tag of an algebraic constraint, "equality-to-zero
variants" per §3.  Only `Identity` is used by the OR node. -/
inductive SumcheckSubpolynomialType where
  | Identity : SumcheckSubpolynomialType
  | ZeroSum : SumcheckSubpolynomialType
deriving DecidableEq, Repr

/-- A multilinear-extension operand of a sumcheck term.  The source passes
`&[bool]` slices boxed as `dyn MultilinearExtension`; the OR node only ever
boxes boolean slices, but scalar slices are kept for faithfulness to the
heterogeneous `Box<dyn MultilinearExtension>`. -/
inductive MLE (S : Type) where
  | ofBool : List Bool → MLE S
  | ofScalar : List S → MLE S
deriving DecidableEq

/-- One registered sumcheck subpolynomial: a kind together with a signed
weighted sum of products of value references (§3: "a signed weighted sum of
products of value-references"). -/
structure SumcheckSubpolynomial (S : Type) where
  kind : SumcheckSubpolynomialType
  terms : List (S × List (MLE S))
deriving DecidableEq

/-- The degree of a subpolynomial is its highest product arity (§3:
"a *degree* (its highest product arity)"). -/
def SumcheckSubpolynomial.maxArity {S : Type} (p : SumcheckSubpolynomial S) : Nat :=
  (p.terms.map (fun t => t.2.length)).foldr max 0

/-- Modelled from the spec: `ProofBuilder` (sql/proof, not in the provided
sources) keeps "ordered append-only sequences: auxiliary values … and
constraints" (§4.3). -/
structure ProofBuilder (S : Type) where
  mles : List (MLE S)
  subpolynomials : List (SumcheckSubpolynomial S)
deriving DecidableEq

/-- Modelled from the spec: `ProofBuilder::produce_intermediate_mle` appends
one auxiliary value to the ordered sequence (§4.3). -/
def ProofBuilder.produce_intermediate_mle {S : Type}
    (b : ProofBuilder S) (m : MLE S) : ProofBuilder S :=
  { b with mles := b.mles ++ [m] }

/-- Modelled from the spec: `ProofBuilder::produce_sumcheck_subpolynomial`
appends one constraint (kind + weighted term list) to the ordered
sequence (§4.3). -/
def ProofBuilder.produce_sumcheck_subpolynomial {S : Type}
    (b : ProofBuilder S) (kind : SumcheckSubpolynomialType)
    (terms : List (S × List (MLE S))) : ProofBuilder S :=
  { b with subpolynomials := b.subpolynomials ++ [⟨kind, terms⟩] }

/-- Modelled from the spec: `CountBuilder` (sql/proof, not in the provided
sources) holds "pure counters: accumulate constraint count, auxiliary-value
count, and running maximum degree" (§4.2). -/
structure CountBuilder where
  subpolynomials : Nat
  intermediate_mles : Nat
  degree : Nat
deriving DecidableEq, Repr

/-- Modelled from the spec: `CountBuilder::count_subpolynomials` accumulates
the constraint count (§4.2). -/
def CountBuilder.count_subpolynomials (b : CountBuilder) (n : Nat) : CountBuilder :=
  { b with subpolynomials := b.subpolynomials + n }

/-- Modelled from the spec: `CountBuilder::count_intermediate_mles`
accumulates the auxiliary-value count (§4.2). -/
def CountBuilder.count_intermediate_mles (b : CountBuilder) (n : Nat) : CountBuilder :=
  { b with intermediate_mles := b.intermediate_mles + n }

/-- Modelled from the spec: `CountBuilder::count_degree` keeps the running
maximum degree (§4.2). -/
def CountBuilder.count_degree (b : CountBuilder) (d : Nat) : CountBuilder :=
  { b with degree := max b.degree d }

/-- Modelled from the spec: `VerificationBuilder` (sql/proof, not in the
provided sources) holds the post-commitment random challenge point, the
ordered queue of prover-claimed auxiliary evaluations, and one running
aggregate of folded constraint-evaluation contributions together with how
many were produced (§4.4). -/
structure VerificationBuilder (S : Type) where
  random_evaluation : S
  intermediate_mle_evaluations : List S
  sumcheck_evaluation : S
  produced_subpolynomials : Nat
deriving DecidableEq

/-- Modelled from the spec: `VerificationBuilder::consume_intermediate_mle`
is "pop-next-auxiliary-evaluation (fails if queue empty — the prover
under-supplied artifacts relative to the predicted count)" (§4.4); the
failure surfaces as a verification error (§4.1). -/
def VerificationBuilder.consume_intermediate_mle {S : Type}
    (b : VerificationBuilder S) : Except ProofError (VerificationBuilder S × S) :=
  match b.intermediate_mle_evaluations with
  | [] => .error .VerificationError
  | a :: rest => .ok ({ b with intermediate_mle_evaluations := rest }, a)

/-- Modelled from the spec:
`VerificationBuilder::produce_sumcheck_subpolynomial_evaluation`
"accumulates into one running aggregate, never checked in isolation"
(§4.4). -/
def VerificationBuilder.produce_sumcheck_subpolynomial_evaluation {S : Type} [CommRing S]
    (b : VerificationBuilder S) (eval : S) : VerificationBuilder S :=
  { b with
    sumcheck_evaluation := b.sumcheck_evaluation + eval
    produced_subpolynomials := b.produced_subpolynomials + 1 }

/-- The `{0,1}` embedding of a boolean into the scalar ring, as used when a
`&[bool]` slice is read as a multilinear extension. -/
def boolToScalar (S : Type) [CommRing S] (b : Bool) : S :=
  if b then 1 else 0

/-- Embedding of `result_evaluate_or` (or_expr.rs:88-97).  The two
`assert_eq!` length checks are the `Option` guard; on success the output is
`alloc_slice_fill_with(table_length, |i| lhs[i] || rhs[i])`. -/
def result_evaluate_or (table_length : Nat) (lhs rhs : List Bool) :
    Option (List Bool) :=
  if table_length = lhs.length ∧ table_length = rhs.length then
    some ((List.range table_length).map
      (fun i => lhs.getD i false || rhs.getD i false))
  else none

/-- Embedding of `prover_evaluate_or` (or_expr.rs:99-123).  The
`assert_eq!(n, rhs.len())` is the `Option` guard; on success the function
appends the array `lhs_and_rhs` as one intermediate MLE, registers one
`Identity` subpolynomial with terms `(+1)·lhs_and_rhs` and `(−1)·lhs·rhs`,
and returns the pointwise-or column. -/
def prover_evaluate_or {S : Type} [CommRing S]
    (builder : ProofBuilder S) (lhs rhs : List Bool) :
    Option (ProofBuilder S × List Bool) :=
  let n := lhs.length
  if n = rhs.length then
    let lhs_and_rhs : List Bool :=
      (List.range n).map (fun i => lhs.getD i false && rhs.getD i false)
    let b1 := builder.produce_intermediate_mle (MLE.ofBool lhs_and_rhs)
    let b2 := b1.produce_sumcheck_subpolynomial SumcheckSubpolynomialType.Identity
      [((1 : S), [MLE.ofBool lhs_and_rhs]),
       ((-1 : S), [MLE.ofBool lhs, MLE.ofBool rhs])]
    some (b2, (List.range n).map (fun i => lhs.getD i false || rhs.getD i false))
  else none

/-- Embedding of `verifier_evaluate_or` (or_expr.rs:125-139): consume one
claimed intermediate-MLE evaluation, fold
`random_evaluation * (lhs_and_rhs - lhs * rhs)` into the aggregate, and
return `lhs + rhs - lhs_and_rhs`. -/
def verifier_evaluate_or {S : Type} [CommRing S]
    (builder : VerificationBuilder S) (lhs rhs : S) :
    Except ProofError (VerificationBuilder S × S) := do
  let (b1, lhs_and_rhs) ← builder.consume_intermediate_mle
  let eval := builder.random_evaluation * (lhs_and_rhs - lhs * rhs)
  let b2 := b1.produce_sumcheck_subpolynomial_evaluation eval
  return (b2, lhs + rhs - lhs_and_rhs)

/-- Embedding of `count_or` (or_expr.rs:141-145). -/
def count_or (builder : CountBuilder) : CountBuilder :=
  ((builder.count_subpolynomials 1).count_intermediate_mles 1).count_degree 3

/-- `ColumnType` (base/database, declaration not in the provided sources):
tag enumerating supported column kinds, §3; variants as used across the
sources.  `Decimal75` carries precision and scale. -/
inductive ColumnType where
  | Boolean : ColumnType
  | SmallInt : ColumnType
  | Int : ColumnType
  | BigInt : ColumnType
  | Int128 : ColumnType
  | Decimal75 : Nat → Int → ColumnType
  | Scalar : ColumnType
  | VarChar : ColumnType
deriving DecidableEq, Repr

/-- `ColumnRef` (base/database, declaration not in the provided sources):
identity key "table + name + type" used to look up data and commitments
(§3). -/
structure ColumnRef where
  table : String
  name : String
  columnType : ColumnType
deriving DecidableEq, Repr

/-- A child subexpression of `OrExpr`, abstracted to its `ProvableExpr`
interface: the `ProvableExprPlan` variants live outside the provided
sources, and `OrExpr` interacts with its boxed children only through these
pass methods.  Each pass is an explicit state transformer over the
corresponding builder; `HashSet<ColumnRef>` is a `Finset`. -/
structure ChildExpr (S : Type) where
  count : CountBuilder → Except ProofError CountBuilder
  verifierEvaluate : VerificationBuilder S → Except ProofError (VerificationBuilder S × S)
  getColumnReferences : Finset ColumnRef → Finset ColumnRef

/-- The OR node (or_expr.rs:16-20): a pair of exclusively owned child
subexpressions. -/
structure OrExpr (S : Type) where
  lhs : ChildExpr S
  rhs : ChildExpr S

/-- Embedding of `OrExpr::count` (or_expr.rs:30-35): count the left child,
then the right child (each aborting upward on error via `?`), then this
node's own contribution. -/
def OrExpr.count {S : Type} (e : OrExpr S) (builder : CountBuilder) :
    Except ProofError CountBuilder := do
  let b1 ← e.lhs.count builder
  let b2 ← e.rhs.count b1
  return count_or b2

/-- Embedding of `OrExpr::verifier_evaluate` (or_expr.rs:71-80): evaluate
the left child, then the right child (each aborting upward on error via
`?`), then this node's own `verifier_evaluate_or`.  In the source the final
call is wrapped in `Ok`; here `verifier_evaluate_or` is itself
`Except`-valued because its queue pop is modelled from the spec as
fallible. -/
def OrExpr.verifier_evaluate {S : Type} [CommRing S] (e : OrExpr S)
    (builder : VerificationBuilder S) :
    Except ProofError (VerificationBuilder S × S) := do
  let (b1, lhs) ← e.lhs.verifierEvaluate builder
  let (b2, rhs) ← e.rhs.verifierEvaluate b1
  verifier_evaluate_or b2 lhs rhs

/-- Embedding of `OrExpr::get_column_references` (or_expr.rs:82-85): thread
the caller's set through the left child, then the right child. -/
def OrExpr.get_column_references {S : Type} (e : OrExpr S)
    (columns : Finset ColumnRef) : Finset ColumnRef :=
  e.rhs.getColumnReferences (e.lhs.getColumnReferences columns)

/-- A trivial concrete child over `ℤ` for instantiations: every pass
succeeds, contributes nothing, and evaluates to 0. -/
def okChild : ChildExpr ℤ :=
  ⟨fun b => .ok b, fun b => .ok (b, 0), fun s => s⟩

/-- A failing concrete child over `ℤ` for instantiations: both recoverable
passes fail immediately. -/
def errChild : ChildExpr ℤ :=
  ⟨fun _ => .error .VerificationError, fun _ => .error .VerificationError,
    fun s => s⟩

/-- A leaf-like concrete child over `ℤ` contributing one fixed column
reference. -/
def refChild (c : ColumnRef) : ChildExpr ℤ :=
  ⟨fun b => .ok b, fun b => .ok (b, 0), fun s => s ∪ {c}⟩

/-!  Shared helper lemmas about the embedded functions. -/

/-- An `alloc_slice_fill_with`-style column read below its length gives the
generator's value. -/
theorem rangeMap_getD {α : Type} (n : Nat) (g : Nat → α) (i : Nat)
    (h : i < n) (d : α) : ((List.range n).map g).getD i d = g i := by
  rw [List.getD_eq_getElem?_getD, List.getElem?_map, List.getElem?_range h]
  rfl

/-- Success equation for `result_evaluate_or` under the length contract. -/
theorem result_evaluate_or_eq (n : Nat) (lhs rhs : List Bool)
    (hl : lhs.length = n) (hr : rhs.length = n) :
    result_evaluate_or n lhs rhs =
      some ((List.range n).map (fun i => lhs.getD i false || rhs.getD i false)) := by
  unfold result_evaluate_or
  rw [if_pos ⟨hl.symm, hr.symm⟩]

/-- Failure characterization for `result_evaluate_or`. -/
theorem result_evaluate_or_none_iff (n : Nat) (lhs rhs : List Bool) :
    result_evaluate_or n lhs rhs = none ↔ (lhs.length ≠ n ∨ rhs.length ≠ n) := by
  unfold result_evaluate_or
  by_cases h : n = lhs.length ∧ n = rhs.length
  · rw [if_pos h]
    simp only [reduceCtorEq, false_iff]
    omega
  · rw [if_neg h]
    simp only [true_iff]
    omega

/-- Success equation for `prover_evaluate_or` under the length contract:
the builder receives exactly the and-column MLE and the identity
subpolynomial, and the or-column is returned. -/
theorem prover_evaluate_or_eq {S : Type} [CommRing S]
    (pb : ProofBuilder S) (lhs rhs : List Bool) (h : lhs.length = rhs.length) :
    prover_evaluate_or pb lhs rhs =
      some
        ({ mles := pb.mles ++
            [MLE.ofBool ((List.range lhs.length).map
              (fun i => lhs.getD i false && rhs.getD i false))]
           subpolynomials := pb.subpolynomials ++
            [⟨SumcheckSubpolynomialType.Identity,
              [((1 : S),
                [MLE.ofBool ((List.range lhs.length).map
                  (fun i => lhs.getD i false && rhs.getD i false))]),
               ((-1 : S), [MLE.ofBool lhs, MLE.ofBool rhs])]⟩] },
         (List.range lhs.length).map
           (fun i => lhs.getD i false || rhs.getD i false)) := by
  unfold prover_evaluate_or
  rw [if_pos h]
  rfl

/-- Failure characterization for `prover_evaluate_or`. -/
theorem prover_evaluate_or_none_iff {S : Type} [CommRing S]
    (pb : ProofBuilder S) (lhs rhs : List Bool) :
    prover_evaluate_or pb lhs rhs = none ↔ lhs.length ≠ rhs.length := by
  unfold prover_evaluate_or
  by_cases h : lhs.length = rhs.length
  · rw [if_pos h]
    simp [h]
  · rw [if_neg h]
    simp [h]

/-- Success equation for `verifier_evaluate_or` on a non-empty queue: pop
the head, fold `random_evaluation * (head - lhs * rhs)`, return
`lhs + rhs - head`. -/
theorem verifier_evaluate_or_cons {S : Type} [CommRing S]
    (vb : VerificationBuilder S) (a : S) (rest : List S) (lhs rhs : S)
    (hq : vb.intermediate_mle_evaluations = a :: rest) :
    verifier_evaluate_or vb lhs rhs = .ok
      ({ vb with
          intermediate_mle_evaluations := rest
          sumcheck_evaluation :=
            vb.sumcheck_evaluation + vb.random_evaluation * (a - lhs * rhs)
          produced_subpolynomials := vb.produced_subpolynomials + 1 },
        lhs + rhs - a) := by
  unfold verifier_evaluate_or VerificationBuilder.consume_intermediate_mle
  rw [hq]
  rfl

/-- Failure equation for `verifier_evaluate_or` on an exhausted queue. -/
theorem verifier_evaluate_or_nil {S : Type} [CommRing S]
    (vb : VerificationBuilder S) (lhs rhs : S)
    (hq : vb.intermediate_mle_evaluations = []) :
    verifier_evaluate_or vb lhs rhs = .error ProofError.VerificationError := by
  unfold verifier_evaluate_or VerificationBuilder.consume_intermediate_mle
  rw [hq]
  rfl

/-- The arithmetic identity behind the OR arithmetization, over any
commutative ring. -/
theorem boolToScalar_or (S : Type) [CommRing S] (l r : Bool) :
    boolToScalar S l + boolToScalar S r - boolToScalar S l * boolToScalar S r =
      boolToScalar S (l || r) := by
  cases l <;> cases r <;> simp [boolToScalar]

/-!  Theorems for the claims. -/

/-- C1: for every table length `n` and boolean slices `lhs`, `rhs` of
length `n`, `result_evaluate_or` returns a boolean column of length `n`
whose `i`-th entry is `lhs[i] || rhs[i]` for every `i < n`; in particular on
`L = [true, false, true, false]` and `R = [false, false, true, true]` it
returns `[true, false, true, true]`. -/
theorem result_evaluate_or_correct (n : Nat) (lhs rhs : List Bool)
    (hl : lhs.length = n) (hr : rhs.length = n) :
    (∃ out : List Bool,
      result_evaluate_or n lhs rhs = some out ∧ out.length = n ∧
      ∀ i, i < n → out.getD i false = (lhs.getD i false || rhs.getD i false)) ∧
    result_evaluate_or 4 [true, false, true, false] [false, false, true, true] =
      some [true, false, true, true] := by
  refine ⟨⟨(List.range n).map (fun i => lhs.getD i false || rhs.getD i false),
    result_evaluate_or_eq n lhs rhs hl hr, by simp,
    fun i hi => rangeMap_getD n _ i hi false⟩, by decide⟩

/-- Witness for C1: the theorem applied at `n = 4` and the spec's concrete
columns. -/
theorem result_evaluate_or_correct_witness :
    (∃ out : List Bool,
      result_evaluate_or 4 [true, false, true, false] [false, false, true, true] =
        some out ∧ out.length = 4 ∧
      ∀ i, i < 4 → out.getD i false =
        (List.getD [true, false, true, false] i false ||
          List.getD [false, false, true, true] i false)) ∧
    result_evaluate_or 4 [true, false, true, false] [false, false, true, true] =
      some [true, false, true, true] :=
  result_evaluate_or_correct 4 [true, false, true, false]
    [false, false, true, true] rfl rfl

/-- C5: on any equal-length inputs and any builder state,
`prover_evaluate_or` returns the identical output column as
`result_evaluate_or`; the two passes differ only in the builder state. -/
theorem prover_matches_result {S : Type} [CommRing S] (n : Nat)
    (pb : ProofBuilder S) (lhs rhs : List Bool)
    (hl : lhs.length = n) (hr : rhs.length = n) :
    ∃ (pb' : ProofBuilder S) (out : List Bool),
      prover_evaluate_or pb lhs rhs = some (pb', out) ∧
      result_evaluate_or n lhs rhs = some out := by
  have h := prover_evaluate_or_eq pb lhs rhs (hl.trans hr.symm)
  rw [hl] at h
  exact ⟨_, _, h, result_evaluate_or_eq n lhs rhs hl hr⟩

/-- Witness for C5: the theorem applied at concrete columns over `ℤ`. -/
theorem prover_matches_result_witness :
    ∃ (pb' : ProofBuilder ℤ) (out : List Bool),
      prover_evaluate_or (⟨[], []⟩ : ProofBuilder ℤ)
        [true, false, true, false] [false, false, true, true] = some (pb', out) ∧
      result_evaluate_or 4 [true, false, true, false] [false, false, true, true] =
        some out :=
  prover_matches_result 4 ⟨[], []⟩ [true, false, true, false]
    [false, false, true, true] rfl rfl

/-- C2: on equal-length boolean inputs `prover_evaluate_or` appends exactly
one intermediate auxiliary value to the builder, the and-column `A` with
`A[i] = lhs[i] && rhs[i]`, registers exactly one `Identity` sumcheck
subpolynomial with terms `(+1)·A` and `(−1)·lhs·rhs`, returns the column
`out` with `out[i] = lhs[i] || rhs[i]`, and performs no other builder
effects. -/
theorem prover_evaluate_or_effects {S : Type} [CommRing S]
    (pb : ProofBuilder S) (lhs rhs : List Bool) (h : lhs.length = rhs.length) :
    ∃ (pb' : ProofBuilder S) (A out : List Bool),
      prover_evaluate_or pb lhs rhs = some (pb', out) ∧
      A.length = lhs.length ∧
      (∀ i, i < lhs.length →
        A.getD i false = (lhs.getD i false && rhs.getD i false)) ∧
      pb'.mles = pb.mles ++ [MLE.ofBool A] ∧
      pb'.subpolynomials = pb.subpolynomials ++
        [⟨SumcheckSubpolynomialType.Identity,
          [((1 : S), [MLE.ofBool A]),
           ((-1 : S), [MLE.ofBool lhs, MLE.ofBool rhs])]⟩] ∧
      out.length = lhs.length ∧
      (∀ i, i < lhs.length →
        out.getD i false = (lhs.getD i false || rhs.getD i false)) :=
  ⟨_, (List.range lhs.length).map (fun i => lhs.getD i false && rhs.getD i false),
    (List.range lhs.length).map (fun i => lhs.getD i false || rhs.getD i false),
    prover_evaluate_or_eq pb lhs rhs h, by simp,
    fun i hi => rangeMap_getD _ _ i hi false, rfl, rfl, by simp,
    fun i hi => rangeMap_getD _ _ i hi false⟩

/-- Witness for C2: the theorem applied over `ℤ` at the empty builder and
the spec's concrete columns. -/
theorem prover_evaluate_or_effects_witness :
    List.length [true, false, true, false] =
      List.length [false, false, true, true] ∧
    ∃ (pb' : ProofBuilder ℤ) (A out : List Bool),
      prover_evaluate_or (⟨[], []⟩ : ProofBuilder ℤ)
        [true, false, true, false] [false, false, true, true] = some (pb', out) ∧
      A.length = List.length [true, false, true, false] ∧
      (∀ i, i < List.length [true, false, true, false] →
        A.getD i false = (List.getD [true, false, true, false] i false &&
          List.getD [false, false, true, true] i false)) ∧
      pb'.mles = [] ++ [MLE.ofBool A] ∧
      pb'.subpolynomials = [] ++
        [⟨SumcheckSubpolynomialType.Identity,
          [((1 : ℤ), [MLE.ofBool A]),
           ((-1 : ℤ), [MLE.ofBool [true, false, true, false],
             MLE.ofBool [false, false, true, true]])]⟩] ∧
      out.length = List.length [true, false, true, false] ∧
      (∀ i, i < List.length [true, false, true, false] →
        out.getD i false = (List.getD [true, false, true, false] i false ||
          List.getD [false, false, true, true] i false)) :=
  ⟨rfl, prover_evaluate_or_effects ⟨[], []⟩ [true, false, true, false]
    [false, false, true, true] rfl⟩

/-- C3: on a builder whose claimed-evaluation queue starts with `a`,
`verifier_evaluate_or` pops exactly that one evaluation, folds exactly one
contribution `random_evaluation * (a - lhs * rhs)` into the aggregate, and
returns `lhs + rhs - a`. -/
theorem verifier_evaluate_or_effects {S : Type} [CommRing S]
    (vb : VerificationBuilder S) (a : S) (rest : List S) (lhs rhs : S)
    (hq : vb.intermediate_mle_evaluations = a :: rest) :
    verifier_evaluate_or vb lhs rhs = .ok
      ({ vb with
          intermediate_mle_evaluations := rest
          sumcheck_evaluation :=
            vb.sumcheck_evaluation + vb.random_evaluation * (a - lhs * rhs)
          produced_subpolynomials := vb.produced_subpolynomials + 1 },
        lhs + rhs - a) :=
  verifier_evaluate_or_cons vb a rest lhs rhs hq

/-- Witness for C3: the theorem applied over `ℤ` to a builder with queue
`[6, 5]`, challenge weight 2, and child evaluations 2 and 3. -/
theorem verifier_evaluate_or_effects_witness :
    (⟨2, [6, 5], 10, 0⟩ : VerificationBuilder ℤ).intermediate_mle_evaluations =
      6 :: [5] ∧
    verifier_evaluate_or (⟨2, [6, 5], 10, 0⟩ : VerificationBuilder ℤ) 2 3 = .ok
      ({ (⟨2, [6, 5], 10, 0⟩ : VerificationBuilder ℤ) with
          intermediate_mle_evaluations := [5]
          sumcheck_evaluation := 10 + 2 * (6 - 2 * 3)
          produced_subpolynomials := 0 + 1 },
        2 + 3 - 6) :=
  ⟨rfl, verifier_evaluate_or_effects ⟨2, [6, 5], 10, 0⟩ 6 [5] 2 3 rfl⟩

/-- C6: over any commutative ring, `l + r − l·r` on `{0,1}` embeddings
equals the embedding of `l ∨ r`; consequently, when the claimed auxiliary
evaluation at index `i` is the honest product of the embeddings, the scalar
`verifier_evaluate_or` returns equals the embedding of the boolean
`result_evaluate_or` returns at index `i`. -/
theorem or_arithmetization {S : Type} [CommRing S]
    (n : Nat) (lhs rhs out : List Bool) (i : Nat) (hi : i < n)
    (hl : lhs.length = n) (hr : rhs.length = n)
    (hout : result_evaluate_or n lhs rhs = some out)
    (vb : VerificationBuilder S) (rest : List S)
    (hq : vb.intermediate_mle_evaluations =
      (boolToScalar S (lhs.getD i false) * boolToScalar S (rhs.getD i false))
        :: rest) :
    (∀ l r : Bool,
      boolToScalar S l + boolToScalar S r -
        boolToScalar S l * boolToScalar S r = boolToScalar S (l || r)) ∧
    ∃ vb' : VerificationBuilder S,
      verifier_evaluate_or vb (boolToScalar S (lhs.getD i false))
          (boolToScalar S (rhs.getD i false)) =
        .ok (vb', boolToScalar S (out.getD i false)) := by
  have hcons := verifier_evaluate_or_cons vb _ rest
    (boolToScalar S (lhs.getD i false)) (boolToScalar S (rhs.getD i false)) hq
  have hout' : out =
      (List.range n).map (fun j => lhs.getD j false || rhs.getD j false) := by
    have h2 := result_evaluate_or_eq n lhs rhs hl hr
    rw [hout] at h2
    exact Option.some.inj h2
  have hget : out.getD i false = (lhs.getD i false || rhs.getD i false) := by
    rw [hout']
    exact rangeMap_getD n _ i hi false
  have hval : boolToScalar S (lhs.getD i false) + boolToScalar S (rhs.getD i false) -
      boolToScalar S (lhs.getD i false) * boolToScalar S (rhs.getD i false) =
      boolToScalar S (out.getD i false) := by
    rw [hget]
    exact boolToScalar_or S _ _
  rw [hval] at hcons
  exact ⟨boolToScalar_or S, ⟨_, hcons⟩⟩

/-- Witness for C6: the theorem applied over `ℤ` at index 2 of the spec's
concrete columns, with the honest product at the head of the queue. -/
theorem or_arithmetization_witness :
    result_evaluate_or 4 [true, false, true, false] [false, false, true, true] =
      some [true, false, true, true] ∧
    ((∀ l r : Bool,
      boolToScalar ℤ l + boolToScalar ℤ r -
        boolToScalar ℤ l * boolToScalar ℤ r = boolToScalar ℤ (l || r)) ∧
    ∃ vb' : VerificationBuilder ℤ,
      verifier_evaluate_or
          (⟨7, [boolToScalar ℤ (List.getD [true, false, true, false] 2 false) *
            boolToScalar ℤ (List.getD [false, false, true, true] 2 false)], 0, 0⟩
            : VerificationBuilder ℤ)
          (boolToScalar ℤ (List.getD [true, false, true, false] 2 false))
          (boolToScalar ℤ (List.getD [false, false, true, true] 2 false)) =
        .ok (vb',
          boolToScalar ℤ (List.getD [true, false, true, true] 2 false))) :=
  ⟨by decide, or_arithmetization 4 [true, false, true, false]
    [false, false, true, true] [true, false, true, true] 2 (by decide) rfl rfl
    (by decide) _ [] rfl⟩

/-- C9: `result_evaluate_or` fails exactly when a slice length differs from
`table_length`, `prover_evaluate_or` fails exactly when the two slice
lengths differ (so the failure decision precedes and is independent of any
builder mutation), and on `table_length = 0` with empty slices both return
an empty column without failing. -/
theorem or_length_contract {S : Type} [CommRing S] (pb : ProofBuilder S) :
    (∀ (n : Nat) (lhs rhs : List Bool),
      result_evaluate_or n lhs rhs = none ↔ (lhs.length ≠ n ∨ rhs.length ≠ n)) ∧
    (∀ lhs rhs : List Bool,
      prover_evaluate_or pb lhs rhs = none ↔ lhs.length ≠ rhs.length) ∧
    result_evaluate_or 0 [] [] = some [] ∧
    (∃ pb' : ProofBuilder S, prover_evaluate_or pb [] [] = some (pb', [])) := by
  refine ⟨result_evaluate_or_none_iff, prover_evaluate_or_none_iff pb, by decide, ?_⟩
  exact ⟨_, prover_evaluate_or_eq pb [] [] rfl⟩

/-- C4: the shape counted by `count_or` (one more subpolynomial, one more
intermediate MLE, degree candidate 3 into the running maximum) equals what
a successful `prover_evaluate_or` produces (exactly one appended MLE and
one appended subpolynomial of product arity at most 3) and what a
successful `verifier_evaluate_or` consumes and produces (exactly one popped
queued evaluation and one folded subpolynomial-evaluation contribution). -/
theorem or_shape_consistent {S : Type} [CommRing S]
    (cb : CountBuilder) (pb pb' : ProofBuilder S) (lhs rhs out : List Bool)
    (vb vb' : VerificationBuilder S) (l r res : S)
    (hp : prover_evaluate_or pb lhs rhs = some (pb', out))
    (hv : verifier_evaluate_or vb l r = .ok (vb', res)) :
    (count_or cb).subpolynomials = cb.subpolynomials + 1 ∧
    (count_or cb).intermediate_mles = cb.intermediate_mles + 1 ∧
    (count_or cb).degree = max cb.degree 3 ∧
    pb'.mles.length = pb.mles.length + 1 ∧
    (∃ p : SumcheckSubpolynomial S,
      pb'.subpolynomials = pb.subpolynomials ++ [p] ∧ p.maxArity ≤ 3) ∧
    vb.intermediate_mle_evaluations.length =
      vb'.intermediate_mle_evaluations.length + 1 ∧
    vb'.produced_subpolynomials = vb.produced_subpolynomials + 1 := by
  have hlen : lhs.length = rhs.length := by
    by_contra hne
    rw [(prover_evaluate_or_none_iff pb lhs rhs).mpr hne] at hp
    exact Option.noConfusion hp
  rw [prover_evaluate_or_eq pb lhs rhs hlen] at hp
  simp only [Option.some.injEq, Prod.mk.injEq] at hp
  obtain ⟨hpb, hout⟩ := hp
  subst hpb
  rcases hqv : vb.intermediate_mle_evaluations with _ | ⟨a, rest⟩
  · rw [verifier_evaluate_or_nil vb l r hqv] at hv
    simp at hv
  · rw [verifier_evaluate_or_cons vb a rest l r hqv] at hv
    simp only [Except.ok.injEq, Prod.mk.injEq] at hv
    obtain ⟨hvb, hres⟩ := hv
    subst hvb
    refine ⟨rfl, rfl, rfl, by simp, ⟨_, rfl, ?_⟩, by simp, rfl⟩
    simp [SumcheckSubpolynomial.maxArity]

/-- Witness for C4: the theorem applied over `ℤ` to the empty prover
builder on `[true]`, `[false]` and to a verifier builder with queue `[5]`,
challenge weight 2, and child evaluations 3 and 4. -/
theorem or_shape_consistent_witness :
    prover_evaluate_or (⟨[], []⟩ : ProofBuilder ℤ) [true] [false] =
      some
        (⟨[MLE.ofBool [false]],
          [⟨SumcheckSubpolynomialType.Identity,
            [((1 : ℤ), [MLE.ofBool [false]]),
             ((-1 : ℤ), [MLE.ofBool [true], MLE.ofBool [false]])]⟩]⟩,
         [true]) ∧
    verifier_evaluate_or (⟨2, [5], 0, 0⟩ : VerificationBuilder ℤ) 3 4 =
      .ok (⟨2, [], 0 + 2 * (5 - 3 * 4), 0 + 1⟩, 3 + 4 - 5) ∧
    ((count_or ⟨0, 0, 0⟩).subpolynomials = 0 + 1 ∧
     (count_or ⟨0, 0, 0⟩).intermediate_mles = 0 + 1 ∧
     (count_or ⟨0, 0, 0⟩).degree = max 0 3 ∧
     List.length (⟨[MLE.ofBool [false]],
        [⟨SumcheckSubpolynomialType.Identity,
          [((1 : ℤ), [MLE.ofBool [false]]),
           ((-1 : ℤ), [MLE.ofBool [true], MLE.ofBool [false]])]⟩]⟩
        : ProofBuilder ℤ).mles = List.length ([] : List (MLE ℤ)) + 1 ∧
     (∃ p : SumcheckSubpolynomial ℤ,
       (⟨[MLE.ofBool [false]],
          [⟨SumcheckSubpolynomialType.Identity,
            [((1 : ℤ), [MLE.ofBool [false]]),
             ((-1 : ℤ), [MLE.ofBool [true], MLE.ofBool [false]])]⟩]⟩
          : ProofBuilder ℤ).subpolynomials =
         ([] : List (SumcheckSubpolynomial ℤ)) ++ [p] ∧ p.maxArity ≤ 3) ∧
     List.length [(5 : ℤ)] =
       List.length
         ((⟨2, [], 0 + 2 * (5 - 3 * 4), 0 + 1⟩ :
           VerificationBuilder ℤ).intermediate_mle_evaluations) + 1 ∧
     (⟨2, [], 0 + 2 * (5 - 3 * 4), 0 + 1⟩ :
        VerificationBuilder ℤ).produced_subpolynomials = 0 + 1) := by
  have hp : prover_evaluate_or (⟨[], []⟩ : ProofBuilder ℤ) [true] [false] =
      some
        (⟨[MLE.ofBool [false]],
          [⟨SumcheckSubpolynomialType.Identity,
            [((1 : ℤ), [MLE.ofBool [false]]),
             ((-1 : ℤ), [MLE.ofBool [true], MLE.ofBool [false]])]⟩]⟩,
         [true]) := by
    rw [prover_evaluate_or_eq ⟨[], []⟩ [true] [false] rfl]
    rfl
  have hv : verifier_evaluate_or (⟨2, [5], 0, 0⟩ : VerificationBuilder ℤ) 3 4 =
      .ok (⟨2, [], 0 + 2 * (5 - 3 * 4), 0 + 1⟩, 3 + 4 - 5) := by
    rw [verifier_evaluate_or_cons ⟨2, [5], 0, 0⟩ 5 [] 3 4 rfl]
  exact ⟨hp, hv, or_shape_consistent ⟨0, 0, 0⟩ ⟨[], []⟩ _ [true] [false] [true]
    ⟨2, [5], 0, 0⟩ _ 3 4 (3 + 4 - 5) hp hv⟩

/-- C7: when both children succeed but leave the claimed-evaluation queue
exhausted before the OR node's own consumption, `OrExpr.verifier_evaluate`
returns a verification error (a `ProofError`) rather than succeeding. -/
theorem or_verifier_queue_exhausted {S : Type} [CommRing S] (e : OrExpr S)
    (b b1 b2 : VerificationBuilder S) (l r : S)
    (h1 : e.lhs.verifierEvaluate b = .ok (b1, l))
    (h2 : e.rhs.verifierEvaluate b1 = .ok (b2, r))
    (hq : b2.intermediate_mle_evaluations = []) :
    e.verifier_evaluate b = .error ProofError.VerificationError := by
  simp only [OrExpr.verifier_evaluate, h1, h2, bind, Except.bind]
  exact verifier_evaluate_or_nil b2 l r hq

/-- Witness for C7: the theorem applied over `ℤ` to two trivially
succeeding children and a builder with an empty queue. -/
theorem or_verifier_queue_exhausted_witness :
    okChild.verifierEvaluate ⟨0, [], 0, 0⟩ = .ok (⟨0, [], 0, 0⟩, 0) ∧
    (OrExpr.mk okChild okChild).verifier_evaluate
        (⟨0, [], 0, 0⟩ : VerificationBuilder ℤ) =
      .error ProofError.VerificationError :=
  ⟨rfl, or_verifier_queue_exhausted ⟨okChild, okChild⟩ ⟨0, [], 0, 0⟩
    ⟨0, [], 0, 0⟩ ⟨0, [], 0, 0⟩ 0 0 rfl rfl rfl⟩

/-- C8: in the recoverable passes the first error wins: a failing left
child makes `OrExpr.count` (resp. `OrExpr.verifier_evaluate`) return that
same error with the right child never evaluated (the outcome is independent
of the right child) and without this node's own `count_or` (resp.
`verifier_evaluate_or`) contribution; and after a succeeding left child, a
failing right child's error is likewise returned before this node's own
contribution. -/
theorem or_first_error_wins {S : Type} [CommRing S] (e : OrExpr S)
    (cb : CountBuilder) (vb : VerificationBuilder S) (err : ProofError) :
    (e.lhs.count cb = .error err →
      e.count cb = .error err ∧
      ∀ rhs' : ChildExpr S, (OrExpr.mk e.lhs rhs').count cb = .error err) ∧
    (∀ cb1 : CountBuilder, e.lhs.count cb = .ok cb1 →
      e.rhs.count cb1 = .error err → e.count cb = .error err) ∧
    (e.lhs.verifierEvaluate vb = .error err →
      e.verifier_evaluate vb = .error err ∧
      ∀ rhs' : ChildExpr S,
        (OrExpr.mk e.lhs rhs').verifier_evaluate vb = .error err) ∧
    (∀ (vb1 : VerificationBuilder S) (l : S),
      e.lhs.verifierEvaluate vb = .ok (vb1, l) →
      e.rhs.verifierEvaluate vb1 = .error err →
      e.verifier_evaluate vb = .error err) := by
  refine ⟨fun h1 => ⟨?_, fun rhs' => ?_⟩, fun cb1 h1 h2 => ?_,
    fun h1 => ⟨?_, fun rhs' => ?_⟩, fun vb1 l h1 h2 => ?_⟩
  · simp only [OrExpr.count, h1, bind, Except.bind]
  · simp only [OrExpr.count, h1, bind, Except.bind]
  · simp only [OrExpr.count, h1, h2, bind, Except.bind]
  · simp only [OrExpr.verifier_evaluate, h1, bind, Except.bind]
  · simp only [OrExpr.verifier_evaluate, h1, bind, Except.bind]
  · simp only [OrExpr.verifier_evaluate, h1, h2, bind, Except.bind]

/-- Witness for C8: the theorem applied over `ℤ` to a failing left child
with a succeeding right child, and to a succeeding left child with a
failing right child. -/
theorem or_first_error_wins_witness :
    (errChild.count ⟨0, 0, 0⟩ = .error ProofError.VerificationError ∧
      (OrExpr.mk errChild okChild).count ⟨0, 0, 0⟩ =
        .error ProofError.VerificationError) ∧
    (okChild.count ⟨0, 0, 0⟩ = .ok ⟨0, 0, 0⟩ ∧
      errChild.count ⟨0, 0, 0⟩ = .error ProofError.VerificationError ∧
      (OrExpr.mk okChild errChild).count ⟨0, 0, 0⟩ =
        .error ProofError.VerificationError) ∧
    (errChild.verifierEvaluate ⟨0, [], 0, 0⟩ =
        .error ProofError.VerificationError ∧
      (OrExpr.mk errChild okChild).verifier_evaluate
          (⟨0, [], 0, 0⟩ : VerificationBuilder ℤ) =
        .error ProofError.VerificationError) ∧
    (okChild.verifierEvaluate ⟨0, [], 0, 0⟩ = .ok (⟨0, [], 0, 0⟩, 0) ∧
      errChild.verifierEvaluate ⟨0, [], 0, 0⟩ =
        .error ProofError.VerificationError ∧
      (OrExpr.mk okChild errChild).verifier_evaluate
          (⟨0, [], 0, 0⟩ : VerificationBuilder ℤ) =
        .error ProofError.VerificationError) :=
  ⟨⟨rfl, ((or_first_error_wins (OrExpr.mk errChild okChild) ⟨0, 0, 0⟩
      ⟨0, [], 0, 0⟩ ProofError.VerificationError).1 rfl).1⟩,
   ⟨rfl, rfl, (or_first_error_wins (OrExpr.mk okChild errChild) ⟨0, 0, 0⟩
      ⟨0, [], 0, 0⟩ ProofError.VerificationError).2.1 ⟨0, 0, 0⟩ rfl rfl⟩,
   ⟨rfl, ((or_first_error_wins (OrExpr.mk errChild okChild) ⟨0, 0, 0⟩
      ⟨0, [], 0, 0⟩ ProofError.VerificationError).2.2.1 rfl).1⟩,
   ⟨rfl, rfl, (or_first_error_wins (OrExpr.mk okChild errChild) ⟨0, 0, 0⟩
      ⟨0, [], 0, 0⟩ ProofError.VerificationError).2.2.2 ⟨0, [], 0, 0⟩ 0 rfl rfl⟩⟩

/-- C10: when each child only inserts its own leaf column references into
the caller's set, `OrExpr.get_column_references` returns the initial set
united with the leaf references of the two subtrees, inserting and never
removing, with the node itself contributing no reference of its own. -/
theorem or_get_column_references_accumulates {S : Type} (e : OrExpr S)
    (L R : Finset ColumnRef)
    (hL : ∀ s, e.lhs.getColumnReferences s = s ∪ L)
    (hR : ∀ s, e.rhs.getColumnReferences s = s ∪ R)
    (init : Finset ColumnRef) :
    e.get_column_references init = init ∪ (L ∪ R) ∧
    init ⊆ e.get_column_references init := by
  have h : e.get_column_references init = init ∪ (L ∪ R) := by
    simp [OrExpr.get_column_references, hL, hR, Finset.union_assoc]
  exact ⟨h, h ▸ Finset.subset_union_left⟩

/-- Witness for C10: the theorem applied over `ℤ` to two leaf-like
children referencing boolean columns `t.a` and `t.b`, starting from the
empty set. -/
theorem or_get_column_references_accumulates_witness :
    (OrExpr.mk (refChild ⟨"t", "a", ColumnType.Boolean⟩)
        (refChild ⟨"t", "b", ColumnType.Boolean⟩)).get_column_references ∅ =
      ∅ ∪ ({⟨"t", "a", ColumnType.Boolean⟩} ∪ {⟨"t", "b", ColumnType.Boolean⟩}) ∧
    ∅ ⊆ (OrExpr.mk (refChild ⟨"t", "a", ColumnType.Boolean⟩)
        (refChild ⟨"t", "b", ColumnType.Boolean⟩)).get_column_references ∅ :=
  or_get_column_references_accumulates
    (OrExpr.mk (refChild ⟨"t", "a", ColumnType.Boolean⟩)
      (refChild ⟨"t", "b", ColumnType.Boolean⟩))
    {⟨"t", "a", ColumnType.Boolean⟩} {⟨"t", "b", ColumnType.Boolean⟩}
    (fun _ => rfl) (fun _ => rfl) ∅

end SxtOr
